import Mathlib

/-!
Verification of the Stock Ledger Engine of an inventory application.

The definitions below are a shallow embedding of `lib/database.ts`
(`DatabaseService`): the SQLite tables `inventory_items` and
`stock_transactions` become Lean lists, `AUTOINCREMENT` ids become
explicit `nextItemId` / `nextTxId` counters, and `CURRENT_TIMESTAMP`
becomes an explicit logical clock argument `now : Int` (milliseconds,
mirroring JavaScript `Date.getTime()`).  Monetary `REAL` columns are
modelled as exact rationals (`Rat`); quantity `INTEGER` columns as `Int`.

Each mutating operation is embedded in "run" style: it returns the
resulting database state together with `Option String`, `some msg`
standing for a thrown `Error(msg)`.  A throw in the source happens
before any `runAsync` mutation in every modelled operation, so an
erroring run returns the input state unchanged, exactly as the source
leaves SQLite unchanged.
-/

/-- The `type` column of `stock_transactions`: `in | out | sold`. -/
inductive TxType where
  | stockIn
  | stockOut
  | sold
deriving DecidableEq

/-- A row of `inventory_items` (interface `InventoryItem`). -/
structure InventoryItem where
  id : Nat
  name : String
  cost_price : Rat
  selling_price : Rat
  quantity : Int
  min_stock_level : Int
  total_sold : Int
  created_at : Int
  updated_at : Int
deriving DecidableEq

/-- A row of `stock_transactions` (interface `StockTransaction`). -/
structure StockTransaction where
  id : Nat
  item_id : Nat
  type : TxType
  quantity : Int
  unit_price : Option Rat
  total_amount : Option Rat
  notes : String
  created_at : Int
deriving DecidableEq

/-- The persisted database state: both tables plus the AUTOINCREMENT
counters (SQLite assigns row ids 1, 2, 3, ...). -/
structure Db where
  items : List InventoryItem
  transactions : List StockTransaction
  nextItemId : Nat
  nextTxId : Nat
deriving DecidableEq

/-- A freshly created database (after `createAllTables`). -/
def emptyDb : Db := { items := [], transactions := [], nextItemId := 1, nextTxId := 1 }

/-- `INSERT INTO stock_transactions (item_id, type, quantity, unit_price, total_amount, notes)`
with `id` drawn from the AUTOINCREMENT counter and `created_at` from the clock. -/
def insertTx (db : Db) (item_id : Nat) (ty : TxType) (qty : Int)
    (unit_price total_amount : Option Rat) (notes : String) (now : Int) : Db :=
  { db with
    transactions := db.transactions ++
      [{ id := db.nextTxId, item_id := item_id, type := ty, quantity := qty,
         unit_price := unit_price, total_amount := total_amount,
         notes := notes, created_at := now }],
    nextTxId := db.nextTxId + 1 }

/-- `DatabaseService.addInventoryItem`: inserts the item row with
`total_sold = 0`, then, when `item.quantity > 0`, logs the initial stock
as one `in` transaction with note `"Initial stock"`.  Returns the new
state and the row reported back to the caller. -/
def addInventoryItemRun (name : String) (cost_price selling_price : Rat)
    (quantity min_stock_level : Int) (now : Int) (db : Db) : Db × InventoryItem :=
  let itemId := db.nextItemId
  let row : InventoryItem :=
    { id := itemId, name := name, cost_price := cost_price,
      selling_price := selling_price, quantity := quantity,
      min_stock_level := min_stock_level, total_sold := 0,
      created_at := now, updated_at := now }
  let db1 : Db := { db with items := db.items ++ [row], nextItemId := itemId + 1 }
  let db2 : Db :=
    if 0 < quantity then
      insertTx db1 itemId TxType.stockIn quantity none none "Initial stock" now
    else db1
  (db2, row)

/-- `SELECT * FROM inventory_items WHERE id = ?` (`getInventoryItemById`). -/
def getInventoryItemById (db : Db) (id : Nat) : Option InventoryItem :=
  db.items.find? (fun it => it.id == id)

/-- `DatabaseService.updateInventoryStock`: loads the current row (throwing
`"Item not found"` when absent), computes `difference = newQuantity - current`,
classifies it as `in` (`difference > 0`) or `out` otherwise with magnitude
`|difference|`, unconditionally updates the row's quantity (the schema's
`update_inventory_timestamp` trigger then bumps `updated_at`), and logs a
transaction only when `difference !== 0`.  No sign check on `newQuantity`
exists in the source. -/
def updateInventoryStockRun (itemId : Nat) (newQuantity : Int)
    (notes : Option String) (now : Int) (db : Db) : Db × Option String :=
  match db.items.find? (fun it => it.id == itemId) with
  | none => (db, some "Item not found")
  | some currentItem =>
    let difference : Int := newQuantity - currentItem.quantity
    let transactionType : TxType := if 0 < difference then TxType.stockIn else TxType.stockOut
    let transactionQuantity : Int := |difference|
    let db1 : Db :=
      { db with
        items := db.items.map (fun it =>
          if it.id == itemId then
            { it with quantity := newQuantity, updated_at := now }
          else it) }
    let db2 : Db :=
      if difference ≠ 0 then
        insertTx db1 itemId transactionType transactionQuantity none none (notes.getD "") now
      else db1
    (db2, none)

/-- `DatabaseService.recordSale`: loads the row (throwing `"Item not found"`),
throws `"Insufficient stock for sale"` when `currentItem.quantity < quantitySold`,
otherwise computes `salePrice = unitPrice || currentItem.selling_price`
(JavaScript `||`: a provided value of `0` is falsy and falls back to the
selling price), `totalAmount = salePrice * quantitySold`, decrements the
quantity, adds `quantitySold` to `total_sold`, and appends one `sold`
transaction carrying the price and amount.  No `quantitySold <= 0` check
exists in the source. -/
def recordSaleRun (itemId : Nat) (quantitySold : Int) (unitPrice : Option Rat)
    (notes : Option String) (now : Int) (db : Db) : Db × Option String :=
  match db.items.find? (fun it => it.id == itemId) with
  | none => (db, some "Item not found")
  | some currentItem =>
    if currentItem.quantity < quantitySold then
      (db, some "Insufficient stock for sale")
    else
      let salePrice : Rat :=
        match unitPrice with
        | some p => if p = 0 then currentItem.selling_price else p
        | none => currentItem.selling_price
      let totalAmount : Rat := salePrice * (quantitySold : Rat)
      let newQuantity : Int := currentItem.quantity - quantitySold
      let newTotalSold : Int := currentItem.total_sold + quantitySold
      let db1 : Db :=
        { db with
          items := db.items.map (fun it =>
            if it.id == itemId then
              { it with quantity := newQuantity, total_sold := newTotalSold,
                        updated_at := now }
            else it) }
      let db2 : Db :=
        insertTx db1 itemId TxType.sold quantitySold (some salePrice)
          (some totalAmount) (notes.getD "Sale transaction") now
      (db2, none)

/-- `DatabaseService.getStockTransactions`: joins transactions with their
items, filters by `st.item_id` only when the optional `itemId` argument is
truthy (JavaScript `if (itemId)`: `undefined` and `0` are both falsy), and
orders by `created_at DESC`. -/
def getStockTransactions (db : Db) (itemId : Option Nat) : List StockTransaction :=
  let joined := db.transactions.filter (fun tx => db.items.any (fun it => it.id == tx.item_id))
  let filtered :=
    match itemId with
    | some i => if i ≠ 0 then joined.filter (fun tx => tx.item_id == i) else joined
    | none => joined
  List.insertionSort (fun a b => b.created_at ≤ a.created_at) filtered

/-- `SELECT * FROM inventory_items ORDER BY name ASC` (`getAllInventoryItems`). -/
def getAllInventoryItems (db : Db) : List InventoryItem :=
  List.insertionSort (fun a b => ¬ b.name < a.name) db.items

/-- `SELECT * FROM inventory_items WHERE quantity <= min_stock_level ORDER BY name ASC`
(`getLowStockItems`). -/
def getLowStockItems (db : Db) : List InventoryItem :=
  List.insertionSort (fun a b => ¬ b.name < a.name)
    (db.items.filter (fun it => decide (it.quantity ≤ it.min_stock_level)))

/-- `SELECT SUM(cost_price * quantity) FROM inventory_items` (`getTotalStockValue`;
the `|| 0` on a NULL sum is the empty-list sum). -/
def getTotalStockValue (db : Db) : Rat :=
  (db.items.map (fun it => it.cost_price * (it.quantity : Rat))).sum

/-- SQL `created_at BETWEEN ? AND ?` on millisecond timestamps. -/
def betweenMs (startMs endMs t : Int) : Bool :=
  decide (startMs ≤ t ∧ t ≤ endMs)

/-- One row of the joined sums
`SELECT SUM(st.quantity * ii.cost_price) ... JOIN inventory_items ii ON st.item_id = ii.id`:
a transaction contributes its quantity times its item's current cost price,
and contributes nothing when its item no longer exists (the JOIN drops it). -/
def joinedTxValue (db : Db) (tx : StockTransaction) : Rat :=
  match db.items.find? (fun it => it.id == tx.item_id) with
  | some it => (tx.quantity : Rat) * it.cost_price
  | none => 0

/-- Result shape of `getMainStatsForPeriod`. -/
structure MainStats where
  totalItems : Nat
  lowStockCount : Int
  totalValue : Rat
deriving DecidableEq

/-- `DatabaseService.getMainStatsForPeriod`: when
`startDate.getTime() <= new Date("1970-01-01").getTime()` (i.e. `startMs ≤ 0`)
it returns current totals from `getAllInventoryItems` / `getLowStockItems` /
`getTotalStockValue`; otherwise it runs the five period-filtered queries and
returns items created in range, net stock movement and net value movement. -/
def getMainStatsForPeriod (db : Db) (startMs endMs : Int) : MainStats :=
  if startMs ≤ 0 then
    { totalItems := (getAllInventoryItems db).length
      lowStockCount := ((getLowStockItems db).length : Int)
      totalValue := getTotalStockValue db }
  else
    let itemsCreated : Nat :=
      (db.items.filter (fun it => betweenMs startMs endMs it.created_at)).length
    let stockIn : Int :=
      ((db.transactions.filter (fun tx =>
        tx.type == TxType.stockIn && betweenMs startMs endMs tx.created_at)).map
          (fun tx => tx.quantity)).sum
    let stockOut : Int :=
      ((db.transactions.filter (fun tx =>
        tx.type == TxType.stockOut && betweenMs startMs endMs tx.created_at)).map
          (fun tx => tx.quantity)).sum
    let stockInValue : Rat :=
      ((db.transactions.filter (fun tx =>
        tx.type == TxType.stockIn && betweenMs startMs endMs tx.created_at)).map
          (joinedTxValue db)).sum
    let stockOutValue : Rat :=
      ((db.transactions.filter (fun tx =>
        tx.type == TxType.stockOut && betweenMs startMs endMs tx.created_at)).map
          (joinedTxValue db)).sum
    { totalItems := itemsCreated
      lowStockCount := stockIn - stockOut
      totalValue := stockInValue - stockOutValue }

/-- Claim C6's first semantics, written from the claim's words: current
totals — count of all items, count of low-stock items, total stock value
`Σ costPrice * quantity`. -/
def specMainStatsAllTime (db : Db) : MainStats :=
  { totalItems := db.items.length
    lowStockCount := ((db.items.filter (fun it => decide (it.quantity ≤ it.min_stock_level))).length : Int)
    totalValue := (db.items.map (fun it => it.cost_price * (it.quantity : Rat))).sum }

/-- Claim C6's second semantics, written from the claim's words: flow
quantities — count of items created in the range, net stock movement
`Σ in - Σ out` over transactions in the range, and net value movement
`Σ in*costPrice - Σ out*costPrice` in the range. -/
def specMainStatsBounded (db : Db) (startMs endMs : Int) : MainStats :=
  { totalItems := (db.items.filter (fun it => betweenMs startMs endMs it.created_at)).length
    lowStockCount :=
      ((db.transactions.filter (fun tx =>
          tx.type == TxType.stockIn && betweenMs startMs endMs tx.created_at)).map
            (fun tx => tx.quantity)).sum -
      ((db.transactions.filter (fun tx =>
          tx.type == TxType.stockOut && betweenMs startMs endMs tx.created_at)).map
            (fun tx => tx.quantity)).sum
    totalValue :=
      ((db.transactions.filter (fun tx =>
          tx.type == TxType.stockIn && betweenMs startMs endMs tx.created_at)).map
            (joinedTxValue db)).sum -
      ((db.transactions.filter (fun tx =>
          tx.type == TxType.stockOut && betweenMs startMs endMs tx.created_at)).map
            (joinedTxValue db)).sum }

/-!
Lazy initialization (`DatabaseService.ensureInitialized` /
`performInitialization`).  The class's static mutable state
(`isInitialized : boolean`, `initializationPromise : Promise | null`) is
embedded as an explicit state record; an in-flight initialization promise
is represented by the identifier of the setup task it runs, and
`startCount` counts how many setup tasks have ever been started (it is the
identifier the next started task receives).  `ensureInitialized` is the
synchronous part of the source method: it either observes completion,
observes and returns the in-flight promise, or starts a new task and
stores its promise.  `completeInit` is the epilogue of
`performInitialization`: success sets `isInitialized = true` (leaving the
promise in place); failure resets `initializationPromise = null` so the
next call can retry, and never touches `isInitialized`. -/
structure InitState where
  isInitialized : Bool
  pending : Option Nat
  startCount : Nat
deriving DecidableEq

/-- What a caller of `ensureInitialized` ends up awaiting. -/
inductive EnsureOutcome where
  | alreadyDone
  | awaitTask (t : Nat)
deriving DecidableEq

/-- `DatabaseService.ensureInitialized` (the synchronous singleton guard). -/
def ensureInitialized (s : InitState) : InitState × EnsureOutcome :=
  if s.isInitialized then (s, EnsureOutcome.alreadyDone)
  else
    match s.pending with
    | some t => (s, EnsureOutcome.awaitTask t)
    | none =>
      ({ s with pending := some s.startCount, startCount := s.startCount + 1 },
       EnsureOutcome.awaitTask s.startCount)

/-- The completion of the in-flight `performInitialization` task:
`success = true` runs `this.isInitialized = true`; `success = false` runs
`this.initializationPromise = null` and rethrows (so `isInitialized` stays
as it was). -/
def completeInit (s : InitState) (success : Bool) : InitState :=
  if success then { s with isInitialized := true }
  else { s with pending := none }

/-!
Retry policy (`DatabaseService.executeWithRetry`).  An operation's
behaviour across attempts is embedded as a function from the attempt
index to that attempt's outcome (`Except String`-valued, the `String`
being the thrown error's message).  The `while (retries < MAX_RETRIES)`
loop is embedded structurally on the number of remaining attempts, which
starts at `MAX_RETRIES`; the source's unreachable
`throw new Error(... failed after ... attempts)` after the loop is the
`0` case. -/
def MAX_RETRIES : Nat := 3

/-- The transient-failure classification: the caught error's message
includes `NullPointerException` or `has been rejected`. -/
def isTransientMsg (msg : String) : Bool :=
  decide (List.IsInfix "NullPointerException".data msg.data) ||
  decide (List.IsInfix "has been rejected".data msg.data)

/-- The retry loop body: `attempt` is the current value of `retries`,
`remaining = MAX_RETRIES - attempt` attempts are still allowed.  A failed
attempt retries exactly when its message is transient and the incremented
counter is still below `MAX_RETRIES`; otherwise the error is rethrown. -/
def executeWithRetryAux {α : Type} (outcomes : Nat → Except String α) :
    Nat → Nat → Except String α
  | 0, _ => Except.error "operation failed after 3 attempts"
  | remaining + 1, attempt =>
    match outcomes attempt with
    | Except.ok v => Except.ok v
    | Except.error msg =>
      if isTransientMsg msg && decide (attempt + 1 < MAX_RETRIES) then
        executeWithRetryAux outcomes remaining (attempt + 1)
      else Except.error msg

/-- `DatabaseService.executeWithRetry` (after `ensureInitialized`). -/
def executeWithRetry {α : Type} (outcomes : Nat → Except String α) : Except String α :=
  executeWithRetryAux outcomes MAX_RETRIES 0

/-!
Sequences of ledger operations, for the quantity/ledger invariant (C1).
Each constructor carries the arguments of the corresponding
`DatabaseService` call plus the logical timestamp of the call.
-/
inductive LedgerOp where
  | add (name : String) (cost_price selling_price : Rat)
      (quantity min_stock_level : Int) (now : Int)
  | update (itemId : Nat) (newQuantity : Int) (notes : Option String) (now : Int)
  | sale (itemId : Nat) (quantitySold : Int) (unitPrice : Option Rat)
      (notes : Option String) (now : Int)
deriving DecidableEq

/-- Apply one call; a thrown error leaves the state unchanged (the run
functions return the pre-throw state in that case). -/
def applyOp (op : LedgerOp) (db : Db) : Db :=
  match op with
  | LedgerOp.add name cost sell qty minLevel now =>
    (addInventoryItemRun name cost sell qty minLevel now db).1
  | LedgerOp.update itemId newQty notes now =>
    (updateInventoryStockRun itemId newQty notes now db).1
  | LedgerOp.sale itemId qtySold unitPrice notes now =>
    (recordSaleRun itemId qtySold unitPrice notes now db).1

/-- Apply a sequence of calls, each completing before the next begins. -/
def applyOps (ops : List LedgerOp) (db : Db) : Db :=
  ops.foldl (fun d op => applyOp op d) db

/-- The side condition of the amended C1: `addItem` calls carry a
non-negative initial quantity (the other calls are unrestricted). -/
def addQtyOk (op : LedgerOp) : Bool :=
  match op with
  | LedgerOp.add _ _ _ qty _ _ => decide (0 ≤ qty)
  | _ => true

/-- The signed contribution of one transaction: `in` counts positive,
`out` and `sold` negative. -/
def txDelta (tx : StockTransaction) : Int :=
  match tx.type with
  | TxType.stockIn => tx.quantity
  | TxType.stockOut => -tx.quantity
  | TxType.sold => -tx.quantity

/-- The signed sum of an item's transaction quantities. -/
def signedSum (itemId : Nat) (txs : List StockTransaction) : Int :=
  ((txs.filter (fun tx => tx.item_id == itemId)).map txDelta).sum

/-- Well-formedness carried through every operation: row ids stay below the
AUTOINCREMENT counter, and every item's quantity equals the signed sum of
its transactions. -/
def DbOk (db : Db) : Prop :=
  (∀ it ∈ db.items, it.id < db.nextItemId) ∧
  (∀ tx ∈ db.transactions, tx.item_id < db.nextItemId) ∧
  (∀ it ∈ db.items, it.quantity = signedSum it.id db.transactions)

lemma signedSum_append_single (itemId : Nat) (txs : List StockTransaction)
    (tx : StockTransaction) :
    signedSum itemId (txs ++ [tx]) =
      signedSum itemId txs + (if tx.item_id = itemId then txDelta tx else 0) := by
  by_cases h : tx.item_id = itemId <;>
    simp [signedSum, List.filter_append, h]

lemma signedSum_eq_zero (itemId : Nat) (txs : List StockTransaction)
    (h : ∀ tx ∈ txs, tx.item_id ≠ itemId) : signedSum itemId txs = 0 := by
  have hnil : txs.filter (fun tx => tx.item_id == itemId) = [] := by
    refine List.filter_eq_nil_iff.mpr ?_
    intro tx htx
    simpa using h tx htx
  simp [signedSum, hnil]

lemma map_eq_of_mem {α β : Type} {f g : α → β} :
    ∀ {l : List α}, (∀ a ∈ l, f a = g a) → l.map f = l.map g := by
  intro l
  induction l with
  | nil => intro _; rfl
  | cons x xs ih =>
    intro h
    simp only [List.map_cons]
    rw [h x (by simp), ih (fun a ha => h a (by simp [ha]))]

lemma dbOk_empty : DbOk emptyDb := by
  refine ⟨?_, ?_, ?_⟩ <;> intro x hx <;> cases hx

lemma dbOk_add (db : Db) (name : String) (cost sell : Rat) (qty minLevel : Int)
    (now : Int) (h : DbOk db) (hq : 0 ≤ qty) :
    DbOk (addInventoryItemRun name cost sell qty minLevel now db).1 := by
  obtain ⟨hIds, hTx, hInv⟩ := h
  by_cases hpos : 0 < qty
  · simp only [addInventoryItemRun, insertTx, hpos, if_true]
    refine ⟨?_, ?_, ?_⟩
    · intro it hit
      rcases List.mem_append.mp hit with hold | hnew
      · exact Nat.lt_succ_of_lt (hIds it hold)
      · simp only [List.mem_singleton] at hnew
        subst hnew
        exact Nat.lt_succ_self _
    · intro tx htx
      rcases List.mem_append.mp htx with hold | hnew
      · exact Nat.lt_succ_of_lt (hTx tx hold)
      · simp only [List.mem_singleton] at hnew
        subst hnew
        exact Nat.lt_succ_self _
    · intro it hit
      rcases List.mem_append.mp hit with hold | hnew
      · rw [signedSum_append_single]
        have hne : db.nextItemId ≠ it.id := by
          have := hIds it hold
          omega
        simp only [hne, if_false, add_zero]
        exact hInv it hold
      · simp only [List.mem_singleton] at hnew
        subst hnew
        rw [signedSum_append_single]
        have hzero : signedSum db.nextItemId db.transactions = 0 := by
          refine signedSum_eq_zero _ _ ?_
          intro tx htx
          have := hTx tx htx
          omega
        simp [hzero, txDelta]
  · have hq0 : qty = 0 := by omega
    subst hq0
    simp only [addInventoryItemRun, insertTx, hpos, if_false]
    refine ⟨?_, ?_, ?_⟩
    · intro it hit
      rcases List.mem_append.mp hit with hold | hnew
      · exact Nat.lt_succ_of_lt (hIds it hold)
      · simp only [List.mem_singleton] at hnew
        subst hnew
        exact Nat.lt_succ_self _
    · intro tx htx
      exact Nat.lt_succ_of_lt (hTx tx htx)
    · intro it hit
      rcases List.mem_append.mp hit with hold | hnew
      · exact hInv it hold
      · simp only [List.mem_singleton] at hnew
        subst hnew
        have hzero : signedSum db.nextItemId db.transactions = 0 := by
          refine signedSum_eq_zero _ _ ?_
          intro tx htx
          have := hTx tx htx
          omega
        simpa using hzero.symm

lemma dbOk_updateStock (db : Db) (itemId : Nat) (newQuantity : Int)
    (notes : Option String) (now : Int) (h : DbOk db) :
    DbOk (updateInventoryStockRun itemId newQuantity notes now db).1 := by
  obtain ⟨hIds, hTx, hInv⟩ := h
  unfold updateInventoryStockRun
  cases hfind : db.items.find? (fun it => it.id == itemId) with
  | none => exact ⟨hIds, hTx, hInv⟩
  | some cur =>
    have hcurMem : cur ∈ db.items := List.mem_of_find?_eq_some hfind
    have hcurId : cur.id = itemId := by simpa using List.find?_some hfind
    have hfid : ∀ it : InventoryItem,
        (if it.id == itemId then
          { it with quantity := newQuantity, updated_at := now } else it).id = it.id := by
      intro it; split <;> rfl
    dsimp only
    by_cases hdiff : newQuantity - cur.quantity = 0
    · rw [if_neg (by simpa using hdiff)]
      refine ⟨?_, hTx, ?_⟩
      · intro it' hit'
        obtain ⟨it, hitmem, rfl⟩ := List.mem_map.mp hit'
        rw [hfid it]
        exact hIds it hitmem
      · intro it' hit'
        obtain ⟨it, hitmem, rfl⟩ := List.mem_map.mp hit'
        by_cases hb : it.id = itemId
        · have hbeq : (it.id == itemId) = true := by simpa using hb
          have h1 : cur.quantity = signedSum cur.id db.transactions := hInv cur hcurMem
          have h2 : it.id = cur.id := by rw [hb, hcurId]
          simp only [hbeq, if_true]
          show newQuantity = signedSum it.id db.transactions
          rw [h2, ← h1]
          omega
        · have hbeq : (it.id == itemId) = false := by simpa using hb
          simp only [hbeq, Bool.false_eq_true, if_false]
          exact hInv it hitmem
    · rw [if_pos hdiff]
      unfold insertTx
      refine ⟨?_, ?_, ?_⟩
      · intro it' hit'
        obtain ⟨it, hitmem, rfl⟩ := List.mem_map.mp hit'
        rw [hfid it]
        exact hIds it hitmem
      · intro tx htx
        rcases List.mem_append.mp htx with hold | hnew
        · exact hTx tx hold
        · simp only [List.mem_singleton] at hnew
          subst hnew
          show itemId < db.nextItemId
          rw [← hcurId]
          exact hIds cur hcurMem
      · intro it' hit'
        obtain ⟨it, hitmem, rfl⟩ := List.mem_map.mp hit'
        rw [signedSum_append_single]
        have hdelta :
            txDelta
              { id := db.nextTxId, item_id := itemId,
                type := if 0 < newQuantity - cur.quantity then TxType.stockIn else TxType.stockOut,
                quantity := |newQuantity - cur.quantity|, unit_price := none,
                total_amount := none, notes := notes.getD "", created_at := now } =
              newQuantity - cur.quantity := by
          by_cases hd : 0 < newQuantity - cur.quantity
          · simp [txDelta, hd, abs_of_pos hd]
          · have hneg : newQuantity - cur.quantity < 0 := by omega
            simp [txDelta, hd, abs_of_neg hneg]
        by_cases hb : it.id = itemId
        · have hbeq : (it.id == itemId) = true := by simpa using hb
          have h1 : cur.quantity = signedSum cur.id db.transactions := hInv cur hcurMem
          have h2 : it.id = cur.id := by rw [hb, hcurId]
          simp only [hbeq, if_true]
          show newQuantity =
            signedSum it.id db.transactions +
              (if itemId = it.id then _ else 0)
          rw [if_pos hb.symm, hdelta, h2, ← h1]
          omega
        · have hbeq : (it.id == itemId) = false := by simpa using hb
          simp only [hbeq, Bool.false_eq_true, if_false]
          rw [if_neg (fun hc => hb hc.symm), add_zero]
          exact hInv it hitmem

lemma dbOk_sale (db : Db) (itemId : Nat) (quantitySold : Int) (unitPrice : Option Rat)
    (notes : Option String) (now : Int) (h : DbOk db) :
    DbOk (recordSaleRun itemId quantitySold unitPrice notes now db).1 := by
  obtain ⟨hIds, hTx, hInv⟩ := h
  unfold recordSaleRun
  cases hfind : db.items.find? (fun it => it.id == itemId) with
  | none => exact ⟨hIds, hTx, hInv⟩
  | some cur =>
    have hcurMem : cur ∈ db.items := List.mem_of_find?_eq_some hfind
    have hcurId : cur.id = itemId := by simpa using List.find?_some hfind
    dsimp only
    by_cases hins : cur.quantity < quantitySold
    · rw [if_pos hins]
      exact ⟨hIds, hTx, hInv⟩
    · rw [if_neg hins]
      unfold insertTx
      have hfid : ∀ it : InventoryItem,
          (if it.id == itemId then
            { it with quantity := cur.quantity - quantitySold,
                      total_sold := cur.total_sold + quantitySold,
                      updated_at := now } else it).id = it.id := by
        intro it; split <;> rfl
      refine ⟨?_, ?_, ?_⟩
      · intro it' hit'
        obtain ⟨it, hitmem, rfl⟩ := List.mem_map.mp hit'
        rw [hfid it]
        exact hIds it hitmem
      · intro tx htx
        rcases List.mem_append.mp htx with hold | hnew
        · exact hTx tx hold
        · simp only [List.mem_singleton] at hnew
          subst hnew
          show itemId < db.nextItemId
          rw [← hcurId]
          exact hIds cur hcurMem
      · intro it' hit'
        obtain ⟨it, hitmem, rfl⟩ := List.mem_map.mp hit'
        rw [signedSum_append_single]
        by_cases hb : it.id = itemId
        · have hbeq : (it.id == itemId) = true := by simpa using hb
          have h1 : cur.quantity = signedSum cur.id db.transactions := hInv cur hcurMem
          have h2 : it.id = cur.id := by rw [hb, hcurId]
          simp only [hbeq, if_true]
          show cur.quantity - quantitySold =
            signedSum it.id db.transactions + (if itemId = it.id then _ else 0)
          rw [if_pos hb.symm, h2, ← h1]
          show cur.quantity - quantitySold = cur.quantity + txDelta _
          simp only [txDelta]
          omega
        · have hbeq : (it.id == itemId) = false := by simpa using hb
          simp only [hbeq, Bool.false_eq_true, if_false]
          rw [if_neg (fun hc => hb hc.symm), add_zero]
          exact hInv it hitmem

lemma dbOk_applyOp (op : LedgerOp) (db : Db) (h : DbOk db)
    (hop : addQtyOk op = true) : DbOk (applyOp op db) := by
  cases op with
  | add name cost sell qty minLevel now =>
    refine dbOk_add db name cost sell qty minLevel now h ?_
    simpa [addQtyOk] using hop
  | update itemId newQty notes now =>
    exact dbOk_updateStock db itemId newQty notes now h
  | sale itemId qtySold unitPrice notes now =>
    exact dbOk_sale db itemId qtySold unitPrice notes now h

lemma dbOk_applyOps (ops : List LedgerOp) (db : Db) (h : DbOk db)
    (hops : ∀ op ∈ ops, addQtyOk op = true) : DbOk (applyOps ops db) := by
  induction ops generalizing db with
  | nil => simpa [applyOps] using h
  | cons op rest ih =>
    simp only [applyOps, List.foldl_cons]
    exact ih (applyOp op db)
      (dbOk_applyOp op db h (hops op (by simp)))
      (fun o ho => hops o (by simp [ho]))

/-- C1 (amended): for every sequence of `addInventoryItem` /
`updateInventoryStock` / `recordSale` calls starting from the empty
database in which every `addInventoryItem` call has a non-negative initial
quantity, every item's `quantity` equals the signed sum of its transaction
quantities (`in` positive, `out` and `sold` negative).  The restriction on
`addInventoryItem` is forced: a negative initial quantity is stored but
logs no transaction (see the counterexample). -/
theorem claim1_quantity_equals_signed_ledger_sum (ops : List LedgerOp)
    (hops : ∀ op ∈ ops, addQtyOk op = true) :
    ∀ it ∈ (applyOps ops emptyDb).items,
      it.quantity = signedSum it.id (applyOps ops emptyDb).transactions :=
  (dbOk_applyOps ops emptyDb dbOk_empty hops).2.2

/-- A concrete exercise list for the C1 theorem: an add, a priced sale, a
restock, a default-priced sale, an idempotent update and a call on a
missing item. -/
def claim1ExampleOps : List LedgerOp :=
  [LedgerOp.add "Widget" 10 15 100 20 0,
   LedgerOp.sale 1 5 (some 15) none 1,
   LedgerOp.update 1 70 (some "shrinkage") 2,
   LedgerOp.sale 1 4 none none 3,
   LedgerOp.update 1 70 none 4,
   LedgerOp.sale 9 1 none none 5]

theorem claim1_witness :
    (∀ op ∈ claim1ExampleOps, addQtyOk op = true) ∧
    (∀ it ∈ (applyOps claim1ExampleOps emptyDb).items,
      it.quantity = signedSum it.id (applyOps claim1ExampleOps emptyDb).transactions) :=
  ⟨by decide, claim1_quantity_equals_signed_ledger_sum claim1ExampleOps (by decide)⟩

/-- C1 as stated is false: `addInventoryItem` with a negative initial
quantity (nothing in the source rejects it) stores the negative quantity
but logs no transaction, so the quantity (-1) differs from the signed
transaction sum (0). -/
theorem claim1_counterexample :
    ¬ (∀ it ∈ (applyOps [LedgerOp.add "Widget" 10 15 (-1) 0 0] emptyDb).items,
        it.quantity =
          signedSum it.id (applyOps [LedgerOp.add "Widget" 10 15 (-1) 0 0] emptyDb).transactions) := by
  decide

/-- C2: when the sale quantity strictly exceeds the current stock,
`recordSale` throws `"Insufficient stock for sale"` before any mutation:
the returned state is the input state, so quantity, `total_sold` and the
transaction log are all untouched. -/
theorem claim2_insufficient_stock_unchanged (db : Db) (itemId : Nat)
    (quantitySold : Int) (unitPrice : Option Rat) (notes : Option String)
    (now : Int) (cur : InventoryItem)
    (hfind : db.items.find? (fun it => it.id == itemId) = some cur)
    (hlt : cur.quantity < quantitySold) :
    recordSaleRun itemId quantitySold unitPrice notes now db =
      (db, some "Insufficient stock for sale") := by
  unfold recordSaleRun
  rw [hfind]
  dsimp only
  rw [if_pos hlt]

/-- The database after `addInventoryItem("Widget", cost 10, sell 15,
quantity 5, min level 2)` at time 0, used to exercise the claims on
concrete inputs. -/
def exampleDb : Db := (addInventoryItemRun "Widget" 10 15 5 2 0 emptyDb).1

/-- The stored `Widget` row of `exampleDb`. -/
def exampleItem : InventoryItem :=
  { id := 1, name := "Widget", cost_price := 10, selling_price := 15,
    quantity := 5, min_stock_level := 2, total_sold := 0,
    created_at := 0, updated_at := 0 }

theorem claim2_witness :
    exampleDb.items.find? (fun it => it.id == 1) = some exampleItem ∧
    exampleItem.quantity < 6 ∧
    recordSaleRun 1 6 none none 7 exampleDb =
      (exampleDb, some "Insufficient stock for sale") :=
  ⟨by decide, by decide,
   claim2_insufficient_stock_unchanged exampleDb 1 6 none none 7 exampleItem
     (by decide) (by decide)⟩

lemma mem_pairwise_ne_eq {l : List InventoryItem}
    (hpw : l.Pairwise (fun a b => a.id ≠ b.id)) :
    ∀ {a b : InventoryItem}, a ∈ l → b ∈ l → a.id = b.id → a = b := by
  intro a b ha hb hid
  by_contra hne
  exact hpw.forall (fun x y h => h.symm) ha hb hne hid

/-- C9: `updateStock(itemId, currentQuantity)` is a ledger no-op: no
transaction is written (the `difference !== 0` guard fails) and the only
change to the item rows is the `updated_at` bump done by the schema's
`update_inventory_timestamp` trigger, which fires because the source still
runs the `UPDATE` statement.  Item ids are assumed distinct, as the
`INTEGER PRIMARY KEY` column guarantees. -/
theorem claim9_idempotent_update_noop (db : Db) (itemId : Nat)
    (notes : Option String) (now : Int) (cur : InventoryItem)
    (hfind : db.items.find? (fun it => it.id == itemId) = some cur)
    (hpw : db.items.Pairwise (fun a b => a.id ≠ b.id)) :
    updateInventoryStockRun itemId cur.quantity notes now db =
      ({ db with items := db.items.map (fun it =>
          if it.id == itemId then { it with updated_at := now } else it) }, none) := by
  have hmem : cur ∈ db.items := List.mem_of_find?_eq_some hfind
  have hid : cur.id = itemId := by simpa using List.find?_some hfind
  unfold updateInventoryStockRun
  rw [hfind]
  dsimp only
  rw [if_neg (fun hc => hc (sub_self cur.quantity))]
  have hmaps :
      db.items.map (fun it =>
        if it.id == itemId then
          { it with quantity := cur.quantity, updated_at := now } else it) =
      db.items.map (fun it =>
        if it.id == itemId then { it with updated_at := now } else it) := by
    refine map_eq_of_mem ?_
    intro it hit
    by_cases hb : it.id = itemId
    · have hbeq : (it.id == itemId) = true := by simpa using hb
      have heq : cur = it := mem_pairwise_ne_eq hpw hmem hit (by rw [hid, hb])
      simp only [hbeq, if_true]
      rw [heq]
    · have hbeq : (it.id == itemId) = false := by simpa using hb
      simp only [hbeq, Bool.false_eq_true, if_false]
  rw [hmaps]

theorem claim9_witness :
    exampleDb.items.find? (fun it => it.id == 1) = some exampleItem ∧
    exampleDb.items.Pairwise (fun a b => a.id ≠ b.id) ∧
    updateInventoryStockRun 1 exampleItem.quantity none 9 exampleDb =
      ({ exampleDb with items := exampleDb.items.map (fun it =>
          if it.id == 1 then { it with updated_at := 9 } else it) }, none) :=
  ⟨by decide, by decide,
   claim9_idempotent_update_noop exampleDb 1 none 9 exampleItem (by decide) (by decide)⟩

/-- C10: a falsy `itemId` argument of `0` skips the `WHERE st.item_id = ?`
clause (JavaScript `if (itemId)`), so the call returns the transactions of
every item, exactly as the no-argument call does — not the empty list that
filtering by the impossible id `0` would produce. -/
theorem claim10_zero_id_means_no_filter (db : Db) :
    getStockTransactions db (some 0) = getStockTransactions db none := rfl

/-- C3 as stated is false at a concrete input: `updateStock(1, -3)` on the
example database does not fail — it returns no error, stores the negative
quantity and appends a transaction. -/
theorem claim3_counterexample :
    (updateInventoryStockRun 1 (-3) none 1 exampleDb).2 = none ∧
    (updateInventoryStockRun 1 (-3) none 1 exampleDb).1.items.map
      InventoryItem.quantity = [-3] ∧
    (updateInventoryStockRun 1 (-3) none 1 exampleDb).1.transactions.length = 2 := by
  decide

/-- C3 (amended): `updateInventoryStock` performs no sign validation.  For
an existing item with non-negative stock and a negative `newQuantity`, the
call succeeds: the item's quantity becomes the negative value and one
`out` transaction of magnitude `currentQuantity - newQuantity` is
appended. -/
theorem claim3_negative_quantity_is_applied (db : Db) (itemId : Nat)
    (newQuantity : Int) (notes : Option String) (now : Int) (cur : InventoryItem)
    (hfind : db.items.find? (fun it => it.id == itemId) = some cur)
    (hneg : newQuantity < 0) (hnn : 0 ≤ cur.quantity) :
    updateInventoryStockRun itemId newQuantity notes now db =
      ({ db with
          items := db.items.map (fun it =>
            if it.id == itemId then
              { it with quantity := newQuantity, updated_at := now } else it),
          transactions := db.transactions ++
            [{ id := db.nextTxId, item_id := itemId, type := TxType.stockOut,
               quantity := cur.quantity - newQuantity, unit_price := none,
               total_amount := none, notes := notes.getD "", created_at := now }],
          nextTxId := db.nextTxId + 1 }, none) := by
  unfold updateInventoryStockRun
  rw [hfind]
  dsimp only
  have h1 : ¬ (0 < newQuantity - cur.quantity) := by omega
  have h2 : newQuantity - cur.quantity ≠ 0 := by omega
  have h3 : |newQuantity - cur.quantity| = cur.quantity - newQuantity := by
    rw [abs_of_neg (by omega)]
    ring
  rw [if_pos h2]
  unfold insertTx
  rw [if_neg h1, h3]

theorem claim3_witness :
    exampleDb.items.find? (fun it => it.id == 1) = some exampleItem ∧
    (-3 : Int) < 0 ∧ (0 : Int) ≤ exampleItem.quantity ∧
    updateInventoryStockRun 1 (-3) none 1 exampleDb =
      ({ exampleDb with
          items := exampleDb.items.map (fun it =>
            if it.id == 1 then
              { it with quantity := -3, updated_at := 1 } else it),
          transactions := exampleDb.transactions ++
            [{ id := exampleDb.nextTxId, item_id := 1, type := TxType.stockOut,
               quantity := exampleItem.quantity - (-3), unit_price := none,
               total_amount := none, notes := "", created_at := 1 }],
          nextTxId := exampleDb.nextTxId + 1 }, none) :=
  ⟨by decide, by decide, by decide,
   claim3_negative_quantity_is_applied exampleDb 1 (-3) none 1 exampleItem
     (by decide) (by decide) (by decide)⟩

/-- C4 as stated is false at a concrete input: `recordSale(1, 0)` on the
example database does not fail with a validation error — it succeeds and
appends a `sold` transaction of quantity 0. -/
theorem claim4_counterexample :
    (recordSaleRun 1 0 none none 1 exampleDb).2 = none ∧
    (recordSaleRun 1 0 none none 1 exampleDb).1.transactions.map
      (fun tx => (tx.type, tx.quantity)) =
      [(TxType.stockIn, 5), (TxType.sold, 0)] := by
  decide

/-- C4 (amended): `recordSale` performs no `quantitySold <= 0` validation.
For an existing item with non-negative stock and any non-positive
`quantitySold`, the insufficient-stock guard passes, the call succeeds,
quantity is decremented by `quantitySold` (so it grows when the argument
is negative), `total_sold` is increased by `quantitySold` (so it shrinks),
and a `sold` transaction of that non-positive quantity is appended. -/
theorem claim4_nonpositive_sale_is_accepted (db : Db) (itemId : Nat)
    (quantitySold : Int) (unitPrice : Option Rat) (notes : Option String)
    (now : Int) (cur : InventoryItem)
    (hfind : db.items.find? (fun it => it.id == itemId) = some cur)
    (hq : quantitySold ≤ 0) (hnn : 0 ≤ cur.quantity) :
    (recordSaleRun itemId quantitySold unitPrice notes now db).2 = none ∧
    (recordSaleRun itemId quantitySold unitPrice notes now db).1.items =
      db.items.map (fun it =>
        if it.id == itemId then
          { it with quantity := cur.quantity - quantitySold,
                    total_sold := cur.total_sold + quantitySold,
                    updated_at := now } else it) ∧
    (recordSaleRun itemId quantitySold unitPrice notes now db).1.transactions.map
        (fun tx => (tx.item_id, tx.type, tx.quantity)) =
      db.transactions.map (fun tx => (tx.item_id, tx.type, tx.quantity)) ++
        [(itemId, TxType.sold, quantitySold)] := by
  unfold recordSaleRun
  rw [hfind]
  dsimp only
  rw [if_neg (by omega)]
  refine ⟨rfl, rfl, ?_⟩
  simp [insertTx]

theorem claim4_witness :
    exampleDb.items.find? (fun it => it.id == 1) = some exampleItem ∧
    (-2 : Int) ≤ 0 ∧ (0 : Int) ≤ exampleItem.quantity ∧
    ((recordSaleRun 1 (-2) none none 1 exampleDb).2 = none ∧
     (recordSaleRun 1 (-2) none none 1 exampleDb).1.items =
       exampleDb.items.map (fun it =>
         if it.id == 1 then
           { it with quantity := exampleItem.quantity - (-2),
                     total_sold := exampleItem.total_sold + (-2),
                     updated_at := 1 } else it) ∧
     (recordSaleRun 1 (-2) none none 1 exampleDb).1.transactions.map
         (fun tx => (tx.item_id, tx.type, tx.quantity)) =
       exampleDb.transactions.map (fun tx => (tx.item_id, tx.type, tx.quantity)) ++
         [(1, TxType.sold, -2)]) :=
  ⟨by decide, by decide, by decide,
   claim4_nonpositive_sale_is_accepted exampleDb 1 (-2) none none 1 exampleItem
     (by decide) (by decide) (by decide)⟩

/-- C5 as stated is false at a concrete input: a provided `unitPrice` of 0
is not carried into the `sold` transaction — JavaScript `||` treats it
as falsy, so the example item's selling price 15 is recorded instead of 0,
and the total amount is 15, not 0. -/
theorem claim5_counterexample :
    (recordSaleRun 1 1 (some 0) none 1 exampleDb).2 = none ∧
    (recordSaleRun 1 1 (some 0) none 1 exampleDb).1.transactions.map
        (fun tx => tx.unit_price) =
      [none, some 15] ∧
    some (15 : Rat) ≠ some (0 : Rat) := by
  decide

/-- C5 (amended): for every successful `recordSale`, quantity decreases by
`quantitySold`, `total_sold` increases by `quantitySold`, and one `sold`
transaction is appended.  A provided `unitPrice` is carried into the
transaction (with `total_amount = unitPrice * quantitySold`) only when it
is nonzero; when `unitPrice` is omitted or equal to 0, the item's selling
price is used instead. -/
theorem claim5_sale_price_selection :
    (∀ (db : Db) (itemId : Nat) (quantitySold : Int) (u : Rat)
        (notes : Option String) (now : Int) (cur : InventoryItem),
      db.items.find? (fun it => it.id == itemId) = some cur →
      ¬ cur.quantity < quantitySold → u ≠ 0 →
      recordSaleRun itemId quantitySold (some u) notes now db =
        ({ db with
            items := db.items.map (fun it =>
              if it.id == itemId then
                { it with quantity := cur.quantity - quantitySold,
                          total_sold := cur.total_sold + quantitySold,
                          updated_at := now } else it),
            transactions := db.transactions ++
              [{ id := db.nextTxId, item_id := itemId, type := TxType.sold,
                 quantity := quantitySold, unit_price := some u,
                 total_amount := some (u * (quantitySold : Rat)),
                 notes := notes.getD "Sale transaction", created_at := now }],
            nextTxId := db.nextTxId + 1 }, none)) ∧
    (∀ (db : Db) (itemId : Nat) (quantitySold : Int) (unitPrice : Option Rat)
        (notes : Option String) (now : Int) (cur : InventoryItem),
      db.items.find? (fun it => it.id == itemId) = some cur →
      ¬ cur.quantity < quantitySold →
      (unitPrice = none ∨ unitPrice = some 0) →
      recordSaleRun itemId quantitySold unitPrice notes now db =
        ({ db with
            items := db.items.map (fun it =>
              if it.id == itemId then
                { it with quantity := cur.quantity - quantitySold,
                          total_sold := cur.total_sold + quantitySold,
                          updated_at := now } else it),
            transactions := db.transactions ++
              [{ id := db.nextTxId, item_id := itemId, type := TxType.sold,
                 quantity := quantitySold, unit_price := some cur.selling_price,
                 total_amount := some (cur.selling_price * (quantitySold : Rat)),
                 notes := notes.getD "Sale transaction", created_at := now }],
            nextTxId := db.nextTxId + 1 }, none)) := by
  constructor
  · intro db itemId quantitySold u notes now cur hfind hlt hu
    unfold recordSaleRun
    rw [hfind]
    dsimp only
    rw [if_neg hlt, if_neg hu]
    unfold insertTx
    rfl
  · intro db itemId quantitySold unitPrice notes now cur hfind hlt hup
    rcases hup with rfl | rfl
    · unfold recordSaleRun
      rw [hfind]
      dsimp only
      rw [if_neg hlt]
      unfold insertTx
      rfl
    · unfold recordSaleRun
      rw [hfind]
      dsimp only
      rw [if_neg hlt, if_pos rfl]
      unfold insertTx
      rfl

theorem claim5_witness :
    (exampleDb.items.find? (fun it => it.id == 1) = some exampleItem ∧
     ¬ exampleItem.quantity < 2 ∧ (20 : Rat) ≠ 0 ∧
     recordSaleRun 1 2 (some 20) none 3 exampleDb =
       ({ exampleDb with
           items := exampleDb.items.map (fun it =>
             if it.id == 1 then
               { it with quantity := exampleItem.quantity - 2,
                         total_sold := exampleItem.total_sold + 2,
                         updated_at := 3 } else it),
           transactions := exampleDb.transactions ++
             [{ id := exampleDb.nextTxId, item_id := 1, type := TxType.sold,
                quantity := 2, unit_price := some 20,
                total_amount := some (20 * (2 : Rat)),
                notes := "Sale transaction", created_at := 3 }],
           nextTxId := exampleDb.nextTxId + 1 }, none)) ∧
    recordSaleRun 1 2 none none 3 exampleDb =
      ({ exampleDb with
          items := exampleDb.items.map (fun it =>
            if it.id == 1 then
              { it with quantity := exampleItem.quantity - 2,
                        total_sold := exampleItem.total_sold + 2,
                        updated_at := 3 } else it),
          transactions := exampleDb.transactions ++
            [{ id := exampleDb.nextTxId, item_id := 1, type := TxType.sold,
               quantity := 2, unit_price := some exampleItem.selling_price,
               total_amount := some (exampleItem.selling_price * (2 : Rat)),
               notes := "Sale transaction", created_at := 3 }],
          nextTxId := exampleDb.nextTxId + 1 }, none) :=
  ⟨⟨by decide, by decide, by decide,
    claim5_sale_price_selection.1 exampleDb 1 2 20 none 3 exampleItem
      (by decide) (by decide) (by decide)⟩,
   claim5_sale_price_selection.2 exampleDb 1 2 none none 3 exampleItem
     (by decide) (by decide) (Or.inl rfl)⟩

/-- C6: `getMainStatsForPeriod` has two semantics selected by the start
bound.  A range starting at or before the 1970-01-01 epoch (`startMs ≤ 0`)
yields current totals (item count, low-stock count, total stock value
`Σ costPrice * quantity`); any bounded range instead yields flow figures in
the same fields (items created in range, net stock movement
`Σ in - Σ out`, net value movement `Σ in·costPrice - Σ out·costPrice`). -/
theorem claim6_period_stats_two_semantics (db : Db) (startMs endMs : Int) :
    getMainStatsForPeriod db startMs endMs =
      if startMs ≤ 0 then specMainStatsAllTime db
      else specMainStatsBounded db startMs endMs := by
  by_cases h : startMs ≤ 0
  · rw [if_pos h]
    unfold getMainStatsForPeriod
    rw [if_pos h]
    unfold specMainStatsAllTime getAllInventoryItems getLowStockItems getTotalStockValue
    have h1 : ∀ (l : List InventoryItem),
        (List.insertionSort (fun a b => ¬ b.name < a.name) l).length = l.length :=
      fun l => (List.perm_insertionSort _ l).length_eq
    rw [h1, h1]
  · rw [if_neg h]
    unfold getMainStatsForPeriod
    rw [if_neg h]
    rfl

/-- C7: the lazy-initialization guard is single-flight and never caches
failure.  (1) While a setup task `t` is in flight, any further call leaves
the state untouched (no second task is started) and awaits the same task
`t`, so every concurrent caller shares that single outcome.  (2)(3) A
failed completion clears the pending guard and leaves `isInitialized`
untouched, so failure is never treated as success.  (4) After a failure
the next call starts setup from scratch: it launches a fresh task and
awaits it — a failure never permanently prevents retries. -/
theorem claim7_single_flight_lazy_initialization :
    (∀ (s : InitState) (t : Nat), s.isInitialized = false → s.pending = some t →
      ensureInitialized s = (s, EnsureOutcome.awaitTask t)) ∧
    (∀ s : InitState, (completeInit s false).pending = none) ∧
    (∀ s : InitState, (completeInit s false).isInitialized = s.isInitialized) ∧
    (∀ s : InitState, s.isInitialized = false →
      ensureInitialized (completeInit s false) =
        ({ isInitialized := false, pending := some s.startCount,
           startCount := s.startCount + 1 },
         EnsureOutcome.awaitTask s.startCount)) := by
  refine ⟨?_, ?_, ?_, ?_⟩
  · intro s t hinit hpend
    unfold ensureInitialized
    rw [hinit, hpend]
    rfl
  · intro s
    unfold completeInit
    rfl
  · intro s
    unfold completeInit
    rfl
  · intro s hinit
    unfold completeInit ensureInitialized
    simp [hinit]

theorem claim7_witness :
    ensureInitialized ⟨false, some 4, 5⟩ = (⟨false, some 4, 5⟩, EnsureOutcome.awaitTask 4) ∧
    (completeInit ⟨false, some 4, 5⟩ false).pending = none ∧
    (completeInit ⟨false, some 4, 5⟩ false).isInitialized = false ∧
    ensureInitialized (completeInit ⟨false, some 4, 5⟩ false) =
      (⟨false, some 5, 6⟩, EnsureOutcome.awaitTask 5) :=
  ⟨claim7_single_flight_lazy_initialization.1 ⟨false, some 4, 5⟩ 4 rfl rfl,
   claim7_single_flight_lazy_initialization.2.1 ⟨false, some 4, 5⟩,
   claim7_single_flight_lazy_initialization.2.2.1 ⟨false, some 4, 5⟩,
   claim7_single_flight_lazy_initialization.2.2.2 ⟨false, some 4, 5⟩ rfl⟩

lemma executeWithRetryAux_succ {α : Type} (f : Nat → Except String α)
    (remaining attempt : Nat) :
    executeWithRetryAux f (remaining + 1) attempt =
      match f attempt with
      | Except.ok v => Except.ok v
      | Except.error msg =>
        if isTransientMsg msg && decide (attempt + 1 < MAX_RETRIES) then
          executeWithRetryAux f remaining (attempt + 1)
        else Except.error msg := rfl

lemma executeWithRetry_eq {α : Type} (f : Nat → Except String α) :
    executeWithRetry f = executeWithRetryAux f 3 0 := rfl

/-- C8: the retry policy of `executeWithRetry`.  (1) The outcome depends
only on the first three attempts — the operation is attempted at most
`MAX_RETRIES = 3` times.  (2)(3) A failure whose message is not transient
(does not match the `NullPointerException` / `has been rejected`
signatures) propagates immediately, at the first or the second attempt,
regardless of what later attempts would have produced.  (4) After two
transient failures, whatever the third (final allowed) attempt throws
propagates — a transient failure on the last attempt is not retried.
(5) A successful attempt's value is returned, also after transient
failures. -/
theorem claim8_retry_policy (α : Type) :
    (∀ (f g : Nat → Except String α), f 0 = g 0 → f 1 = g 1 → f 2 = g 2 →
      executeWithRetry f = executeWithRetry g) ∧
    (∀ (f : Nat → Except String α) (m : String), f 0 = Except.error m →
      isTransientMsg m = false → executeWithRetry f = Except.error m) ∧
    (∀ (f : Nat → Except String α) (m0 m1 : String),
      f 0 = Except.error m0 → isTransientMsg m0 = true →
      f 1 = Except.error m1 → isTransientMsg m1 = false →
      executeWithRetry f = Except.error m1) ∧
    (∀ (f : Nat → Except String α) (m0 m1 m2 : String),
      f 0 = Except.error m0 → isTransientMsg m0 = true →
      f 1 = Except.error m1 → isTransientMsg m1 = true →
      f 2 = Except.error m2 →
      executeWithRetry f = Except.error m2) ∧
    (∀ (f : Nat → Except String α) (m0 : String) (v : α),
      f 0 = Except.error m0 → isTransientMsg m0 = true →
      f 1 = Except.ok v → executeWithRetry f = Except.ok v) := by
  refine ⟨?_, ?_, ?_, ?_, ?_⟩
  · intro f g h0 h1 h2
    rw [executeWithRetry_eq f, executeWithRetry_eq g,
      show (3 : Nat) = 2 + 1 from rfl,
      executeWithRetryAux_succ f, executeWithRetryAux_succ g, h0]
    cases g 0 with
    | ok v => rfl
    | error m0 =>
      cases hm0 : isTransientMsg m0 with
      | false => simp [hm0]
      | true =>
        simp only [hm0, Bool.true_and]
        norm_num [MAX_RETRIES]
        rw [show (2 : Nat) = 1 + 1 from rfl,
          executeWithRetryAux_succ f, executeWithRetryAux_succ g, h1]
        cases g 1 with
        | ok v => rfl
        | error m1 =>
          cases hm1 : isTransientMsg m1 with
          | false => simp [hm1]
          | true =>
            simp only [hm1, Bool.true_and]
            norm_num [MAX_RETRIES]
            rw [show (1 : Nat) = 0 + 1 from rfl,
              executeWithRetryAux_succ f, executeWithRetryAux_succ g, h2]
            cases g 2 with
            | ok v => rfl
            | error m2 => simp [MAX_RETRIES]
  · intro f m h0 hm
    rw [executeWithRetry_eq, show (3 : Nat) = 2 + 1 from rfl,
      executeWithRetryAux_succ, h0]
    simp [hm]
  · intro f m0 m1 h0 hm0 h1 hm1
    rw [executeWithRetry_eq, show (3 : Nat) = 2 + 1 from rfl,
      executeWithRetryAux_succ, h0]
    simp only [hm0]
    norm_num [MAX_RETRIES]
    rw [show (2 : Nat) = 1 + 1 from rfl, executeWithRetryAux_succ, h1]
    simp [hm1]
  · intro f m0 m1 m2 h0 hm0 h1 hm1 h2
    rw [executeWithRetry_eq, show (3 : Nat) = 2 + 1 from rfl,
      executeWithRetryAux_succ, h0]
    simp only [hm0]
    norm_num [MAX_RETRIES]
    rw [show (2 : Nat) = 1 + 1 from rfl, executeWithRetryAux_succ, h1]
    simp only [hm1]
    norm_num [MAX_RETRIES]
    rw [show (1 : Nat) = 0 + 1 from rfl, executeWithRetryAux_succ, h2]
    simp [MAX_RETRIES]
  · intro f m0 v h0 hm0 h1
    rw [executeWithRetry_eq, show (3 : Nat) = 2 + 1 from rfl,
      executeWithRetryAux_succ, h0]
    simp only [hm0]
    norm_num [MAX_RETRIES]
    rw [show (2 : Nat) = 1 + 1 from rfl, executeWithRetryAux_succ, h1]

/-- A concrete operation for the C8 theorem: a transient failure, then a
transient failure of the second signature, then a non-transient crash. -/
def claim8ExampleOp : Nat → Except String Unit :=
  fun i =>
    if i = 0 then Except.error "java.lang.NullPointerException"
    else if i = 1 then Except.error "Call has been rejected"
    else Except.error "disk I/O error"

theorem claim8_witness :
    executeWithRetry claim8ExampleOp = Except.error "disk I/O error" ∧
    executeWithRetry (fun _ => (Except.error "syntax error" : Except String Unit)) =
      Except.error "syntax error" :=
  ⟨(claim8_retry_policy Unit).2.2.2.1 claim8ExampleOp
      "java.lang.NullPointerException" "Call has been rejected" "disk I/O error"
      rfl (by decide) rfl (by decide) rfl,
   (claim8_retry_policy Unit).2.1 (fun _ => Except.error "syntax error")
      "syntax error" rfl (by decide)⟩

theorem claim6_witness :
    getMainStatsForPeriod exampleDb (-86400000) 0 =
      (if (-86400000 : Int) ≤ 0 then specMainStatsAllTime exampleDb
       else specMainStatsBounded exampleDb (-86400000) 0) ∧
    getMainStatsForPeriod exampleDb 86400000 172800000 =
      (if (86400000 : Int) ≤ 0 then specMainStatsAllTime exampleDb
       else specMainStatsBounded exampleDb 86400000 172800000) :=
  ⟨claim6_period_stats_two_semantics exampleDb (-86400000) 0,
   claim6_period_stats_two_semantics exampleDb 86400000 172800000⟩

theorem claim10_witness :
    getStockTransactions exampleDb (some 0) = getStockTransactions exampleDb none :=
  claim10_zero_id_means_no_filter exampleDb
